import Mathlib

/-!
Verification development for the Aries Google Cloud Storage layer
(`gcp/storage.py`): a shallow embedding of the `GSObject.copy` destination
logic and of the `GSFile` stream state machine, with theorems checking the
documented behaviour.

Strings are modelled as `List Char`; byte payloads as `List Nat`
(each entry a byte value). All definitions are executable.
-/

namespace Aries

/-! ## URI parsing and prefixes

`GSObject` derives its fields from the base `StorageObject` class
(module `Aries/storage.py`, not part of the sources at hand); only the
leading-slash stripping (`GSObject.__init__`) is in `gcp/storage.py`.
-/

/-- Modelled from the spec: PathResolver of the base `StorageObject` class
(not under the available sources) drops everything up through the
`://` scheme marker of a URI. -/
def afterScheme : List Char → List Char
  | ':' :: '/' :: '/' :: rest => rest
  | _ :: rest => afterScheme rest
  | [] => []

/-- Modelled from the spec: PathResolver splits the remainder of the URI at
the first separator into the bucket (hostname) and the path. -/
def splitHost : List Char → List Char × List Char
  | [] => ([], [])
  | '/' :: rest => ([], '/' :: rest)
  | c :: rest =>
    let p := splitHost rest
    (c :: p.1, p.2)

/-- The bucket name of a `gs://bucket/path` URI (`GSObject.bucket_name`). -/
def uriHost (u : List Char) : List Char := (splitHost (afterScheme u)).1

/-- The path component of a `gs://bucket/path` URI (`StorageObject.path`). -/
def uriPath (u : List Char) : List Char := (splitHost (afterScheme u)).2

/-- `GSObject.__init__`: the prefix is the path without the beginning
separator (`if self.path.startswith("/"): self.prefix = self.path[1:]`). -/
def preOfPath (p : List Char) : List Char :=
  match p with
  | '/' :: rest => rest
  | other => other

/-- The `GSObject(...).prefix` of a full URI. -/
def preOfUri (u : List Char) : List Char := preOfPath (uriPath u)

/-- Modelled from the spec: `StorageObject.name` of the base class (not under
the available sources) is the base name of the path — the last path
component, a trailing separator ignored (the spec's copy rules and the
repository tests use it as the folder/file's own name). -/
def baseName (p : List Char) : List Char :=
  let q := if p.reverse.head? = some '/' then p.dropLast else p
  (q.reverse.takeWhile (fun c => c ≠ '/')).reverse

/-- The `name` of a full URI, per the base-class behaviour. -/
def nameOf (u : List Char) : List Char := baseName (uriPath u)

/-- Python `s.endswith("/")`. -/
def endsSlash (l : List Char) : Bool := l.reverse.head? = some '/'

/-! ## `GSObject.copy` -/

/-- Python `str.replace(old, new, 1)`: replace the first occurrence of `old`
(the empty pattern matches at the front) and leave the rest unchanged. -/
def replaceFirst (old new : List Char) : List Char → List Char
  | [] => if old.isPrefixOf [] then new else []
  | c :: rest =>
    if old.isPrefixOf (c :: rest) then new ++ (c :: rest).drop old.length
    else c :: replaceFirst old new rest

/-- The destination-prefix computation of `GSObject.copy` (storage.py lines
120–147): force a separator onto a bucket-root destination, then append the
source base name (destination folder-like) or a separator / nothing
according as the source prefix is folder-shaped or not, and return the
prefix of the resulting URI. `srcPre`/`srcName` are the source object's
prefix and name; `to` is the destination URI. -/
def copyDest (srcPre srcName dst : List Char) : List Char :=
  let to1 := if preOfUri dst = [] ∧ ¬ endsSlash dst then dst ++ ['/'] else dst
  let to2 :=
    if endsSlash srcPre then
      if endsSlash to1 then to1 ++ srcName ++ ['/'] else to1 ++ ['/']
    else
      if endsSlash to1 then to1 ++ srcName else to1
  preOfUri to2

/-- The per-blob renaming of `GSObject.copy` (storage.py lines 150–154):
`new_name = blob.name.replace(self.prefix, destination.prefix, 1)`, and the
blob is copied only when the replacement changed the name. -/
def copyKey (srcPre destPre key : List Char) : Option (List Char) :=
  let nk := replaceFirst srcPre destPre key
  if nk ≠ key then some nk else none

/-- The full renaming pipeline of one `copy(dst)` call on the listed source
keys: compute the destination prefix, then map `copyKey` over the keys,
dropping the skipped ones. -/
def copyPlan (srcUri dst : List Char) (keys : List (List Char)) :
    List (List Char) :=
  let destPre := copyDest (preOfUri srcUri) (nameOf srcUri) dst
  keys.filterMap (copyKey (preOfUri srcUri) destPre)

/-! ## `GSFile`: the stream state machine

The observable state of one `GSFile` instance (storage.py lines 216–231)
together with the content of the remote object (`remote = none` when the
blob does not exist) and the content of the private temp file
(`tempFile = none` when no temp file has been created). Offsets are `Int`
(Python ints). Byte payloads are `List Nat`. -/

/-- The Python exceptions the modelled operations can raise. -/
inductive PyErr where
  | valueError
  | typeError
  | unicodeDecodeError
  | uploadError
deriving DecidableEq, Repr

/-- A Python value returned by `GSFile.read`: `None`, a `str` (temp file is
opened in text mode), or `bytes` (remote ranged download). -/
inductive PyVal where
  | pyNone
  | str (s : List Char)
  | bytes (b : List Nat)
deriving DecidableEq, Repr

/-- Result of an operation: a value or a raised exception. -/
inductive PyRes (α : Type) where
  | ok (a : α)
  | error (e : PyErr)
deriving DecidableEq, Repr

/-- `GSFile.__init__` state (lines 216–231) plus the remote blob content. -/
structure GSFileState where
  remote : Option (List Nat)
  offset : Int
  closed : Bool
  buffer : Option (List Nat)
  bufferOffset : Option Int
  tempFile : Option (List Nat)
  gz : Option Bool
deriving DecidableEq, Repr

/-- `GSFile.__init__`: offset 0, closed, no buffer, no temp file, no cached
gzip flag. `remote` is the content of the object the path points at. -/
def initState (remote : Option (List Nat)) : GSFileState :=
  ⟨remote, 0, true, none, none, none, none⟩

/-- `GSFile.open` (lines 437–440): clear the closed flag and the buffer.
The offset is not touched. -/
def fileOpen (s : GSFileState) : GSFileState :=
  { s with closed := false, buffer := none }

/-- Python truthiness of `self.__buffer` (`None` and `b""` are falsy). -/
def bufTruthy (s : GSFileState) : Bool :=
  match s.buffer with
  | none => false
  | some [] => false
  | some (_ :: _) => true

/-- `GSFile.__append` (lines 368–393): materialize the buffer into the temp
file. A fresh temp file receives the downloaded blob (when it exists)
followed by the buffer — the write lands at the file position left by the
download, the recorded buffer offset is not consulted. An existing temp
file is reopened with mode `w+b`, which truncates it; the seek to the
buffer offset then writes past the new end, so the rewritten file is
zero bytes up to the buffer offset followed by the buffer. Afterwards the
buffer is cleared and the offset advanced by the buffer length. (The
`str`-buffer branch, which encodes before writing, is not exercised: the
claims under check write `bytes`. A negative buffer offset would make the
file seek raise; no claim reaches one, and it is truncated at zero.) -/
def appendBuf (s : GSFileState) : GSFileState :=
  match s.buffer with
  | none => s
  | some [] => s
  | some buf =>
    let newTemp :=
      match s.tempFile with
      | none => (s.remote.getD []) ++ buf
      | some _ => List.replicate ((s.bufferOffset.getD 0).toNat) 0 ++ buf
    { s with tempFile := some newTemp, buffer := none, bufferOffset := none,
             offset := s.offset + buf.length }

/-- `GSFile.write` (lines 395–408): raise on a closed stream; start or
extend the buffer (recording the buffer offset on a fresh buffer);
materialize eagerly when the buffer exceeds 1 MiB; always advance the
offset by the written length and return it. -/
def writeBytes (b : List Nat) (s : GSFileState) : PyRes Nat × GSFileState :=
  if s.closed then (.error .valueError, s)
  else
    let s1 :=
      match s.buffer with
      | none => { s with buffer := some b, bufferOffset := some s.offset }
      | some buf => { s with buffer := some (buf ++ b) }
    let s2 := if 1024 * 1024 < (s1.buffer.getD []).length then appendBuf s1 else s1
    (.ok b.length, { s2 with offset := s2.offset + (b.length : Int) })

/-- The `whence` dispatch of `GSFile.seek` (lines 315–323), applied to the
state left by the buffer materialization: move the offset according to
`whence`; any other `whence` raises `ValueError`. Seeking from the end
uses the remote metadata size; a missing blob has size `None` and
`None + pos` raises `TypeError`. -/
def seekCore (pos w : Int) (s1 : GSFileState) : PyRes Int × GSFileState :=
  if w = 0 then (.ok pos, { s1 with offset := pos })
  else if w = 1 then
    (.ok (s1.offset + pos), { s1 with offset := s1.offset + pos })
  else if w = 2 then
    match s1.remote with
    | some r => (.ok ((r.length : Int) + pos),
                 { s1 with offset := (r.length : Int) + pos })
    | none => (.error .typeError, s1)
  else (.error .valueError, s1)

/-- `GSFile.seek` (lines 299–323): first materialize a (truthy) pending
buffer, then dispatch on `whence` — so an invalid `whence` raises only
after the buffer was already materialized. -/
def seekTo (pos whence : Int) (s : GSFileState) : PyRes Int × GSFileState :=
  seekCore pos whence (if bufTruthy s then appendBuf s else s)

/-- `GSFile.tell` (lines 325–327). -/
def tellPos (s : GSFileState) : Int := s.offset

/-- `GSFile.flush` (lines 410–415): materialize the buffer, then upload the
whole temp file, when one exists, as the new object content. `ok` models
whether the remote put succeeds; on failure the upload raises and the
state keeps whatever the materialization did. There is no closed-state
check. -/
def flushBuf (ok : Bool) (s : GSFileState) : PyRes Unit × GSFileState :=
  let s1 := appendBuf s
  match s1.tempFile with
  | some t => if ok then (.ok (), { s1 with remote := some t })
              else (.error .uploadError, s1)
  | none => (.ok (), s1)

/-- `GSFile.close` (lines 417–432): no-op on a closed stream; otherwise
flush, and in a `finally` block delete the temp file, clear the buffer and
mark the stream closed — whether or not the upload raised. -/
def closeFile (ok : Bool) (s : GSFileState) : PyRes Unit × GSFileState :=
  if s.closed then (.ok (), s)
  else
    let r := flushBuf ok s
    (r.1, { r.2 with tempFile := none, buffer := none, closed := true })

/-! ## Reading

`GSFile.read` serves a stream with a temp file from that file, opened with
`open(self.__temp_file)` — text mode, so the bytes go through the platform
decoder (CPython default UTF-8) and the result is a `str`. Otherwise an
existing blob is served by a ranged download and the result is `bytes`. -/

/-- One UTF-8 scalar from the front of a byte list: the decoded character
and the number of bytes consumed, `none` on malformed input (strict mode,
as CPython's text layer: continuation bytes, overlong forms, surrogates
and out-of-range sequences are rejected). -/
def utf8DecodeOne (bs : List Nat) : Option (Char × Nat) :=
  match bs with
  | [] => none
  | b0 :: rest =>
    if b0 < 0x80 then some (Char.ofNat b0, 1)
    else if 0xC2 ≤ b0 ∧ b0 ≤ 0xDF then
      match rest with
      | b1 :: _ =>
        if 0x80 ≤ b1 ∧ b1 ≤ 0xBF then
          some (Char.ofNat ((b0 - 0xC0) * 0x40 + (b1 - 0x80)), 2)
        else none
      | [] => none
    else if 0xE0 ≤ b0 ∧ b0 ≤ 0xEF then
      match rest with
      | b1 :: b2 :: _ =>
        let lo1 := if b0 = 0xE0 then 0xA0 else 0x80
        let hi1 := if b0 = 0xED then 0x9F else 0xBF
        if (lo1 ≤ b1 ∧ b1 ≤ hi1) ∧ (0x80 ≤ b2 ∧ b2 ≤ 0xBF) then
          some (Char.ofNat
            ((b0 - 0xE0) * 0x1000 + (b1 - 0x80) * 0x40 + (b2 - 0x80)), 3)
        else none
      | _ => none
    else if 0xF0 ≤ b0 ∧ b0 ≤ 0xF4 then
      match rest with
      | b1 :: b2 :: b3 :: _ =>
        let lo1 := if b0 = 0xF0 then 0x90 else 0x80
        let hi1 := if b0 = 0xF4 then 0x8F else 0xBF
        if (lo1 ≤ b1 ∧ b1 ≤ hi1) ∧ (0x80 ≤ b2 ∧ b2 ≤ 0xBF)
            ∧ (0x80 ≤ b3 ∧ b3 ≤ 0xBF) then
          some (Char.ofNat ((b0 - 0xF0) * 0x40000 + (b1 - 0x80) * 0x1000
            + (b2 - 0x80) * 0x40 + (b3 - 0x80)), 4)
        else none
      | _ => none
    else none

/-- Decode up to `limit` characters (all of them when `limit = none`) from
the front of `bs`, returning the characters and the bytes consumed;
`none` on a decoding error. `fuel` only bounds the recursion and is
supplied as `bs.length`, enough since every character consumes at least
one byte. -/
def textTake (fuel : Nat) (bs : List Nat) (limit : Option Nat) :
    Option (List Char × Nat) :=
  match fuel, bs, limit with
  | _, _, some 0 => some ([], 0)
  | _, [], _ => some ([], 0)
  | 0, _ :: _, _ => none
  | fuel' + 1, b0 :: rest, lim =>
    match utf8DecodeOne (b0 :: rest) with
    | none => none
    | some (c, k) =>
      match textTake fuel' ((b0 :: rest).drop k) (lim.map (· - 1)) with
      | none => none
      | some (cs, k') => some (c :: cs, k + k')

/-- The CPython text-mode read used on the temp file: seek to byte position
`off`, decode up to `size` characters, and report the new byte position
(`f.tell()`). Universal-newline translation is not modelled; no claim
involves carriage returns. -/
def textReadFrom (t : List Nat) (off : Nat) (size : Option Nat) :
    Option (List Char × Nat) :=
  match textTake (t.drop off).length (t.drop off) size with
  | none => none
  | some (cs, k) => some (cs, off + k)

/-- `blob.download_as_string(start, end)`: the bytes from `start` through
`end` inclusive, to the end of the object when `end = None`. (A negative
start is truncated at zero; the claims only reach nonnegative offsets.) -/
def dlRange (r : List Nat) (start : Int) (stop : Option Int) : List Nat :=
  match stop with
  | none => r.drop start.toNat
  | some e => (r.drop start.toNat).take (e - start + 1).toNat

/-- `GSFile.read` (lines 333–362). With a temp file: text-mode read from
the current offset, then `offset = f.tell()`. Without one, with an
existing blob: `end` is `blob_size - 1` when `size` is falsy (`None` or
`0`), else `offset + size - 1`; an `end` reaching past `blob_size - 1` is
replaced by `None` (read to the end); after the download the offset
becomes `end + 1` — except that `if end:` treats both `None` and `0` as
falsy, so for those the offset becomes `blob_size`. With no blob at all
the result is Python `None`. -/
def readData (size : Option Nat) (s : GSFileState) :
    PyRes PyVal × GSFileState :=
  match s.tempFile with
  | some t =>
    if s.offset < 0 then (.error .valueError, s)
    else
      match textReadFrom t s.offset.toNat size with
      | some (cs, newPos) => (.ok (.str cs), { s with offset := (newPos : Int) })
      | none => (.error .unicodeDecodeError, s)
  | none =>
    match s.remote with
    | some r =>
      let blobSize : Int := r.length
      let end0 : Int :=
        match size with
        | none => blobSize - 1
        | some 0 => blobSize - 1
        | some n => s.offset + n - 1
      let stop : Option Int := if blobSize - 1 ≤ end0 then none else some end0
      let b := dlRange r s.offset stop
      let newOff : Int :=
        match stop with
        | none => blobSize
        | some e => if e = 0 then blobSize else e + 1
      (.ok (.bytes b), { s with offset := newOff })
    | none => (.ok .pyNone, s)

/-- `binascii.hexlify`: lower-case hex of a `bytes` value; a `str` or
`None` argument raises `TypeError`. -/
def hexDigit (n : Nat) : Char :=
  "0123456789abcdef".toList.getD n '?'

/-- Hex expansion of one byte, low nibble last. -/
def hexByte (b : Nat) : List Char := [hexDigit (b / 16), hexDigit (b % 16)]

/-- `binascii.hexlify` applied to a `read` result. -/
def hexlify (v : PyVal) : PyRes (List Char) :=
  match v with
  | .bytes b => .ok (b.flatMap hexByte)
  | .str _ => .error .typeError
  | .pyNone => .error .typeError

/-- `GSFile.is_gz` (lines 285–295): return the cached flag when present;
a blob shorter than two bytes is reported non-gzip *without* filling the
cache; otherwise save the offset, seek to 0, hexlify the first two bytes,
seek back, and cache the comparison with `1f8b`. A missing blob has size
`None` and the `< 2` comparison raises `TypeError`. -/
def isGz (s : GSFileState) : PyRes Bool × GSFileState :=
  match s.gz with
  | some v => (.ok v, s)
  | none =>
    match s.remote with
    | none => (.error .typeError, s)
    | some r =>
      if r.length < 2 then (.ok false, s)
      else
        let off := tellPos s
        let p1 := seekTo 0 0 s
        match p1.1 with
        | .error e => (.error e, p1.2)
        | .ok _ =>
          let p2 := readData (some 2) p1.2
          match p2.1 with
          | .error e => (.error e, p2.2)
          | .ok v =>
            match hexlify v with
            | .error e => (.error e, p2.2)
            | .ok hx =>
              let p3 := seekTo off 0 p2.2
              match p3.1 with
              | .error e => (.error e, p3.2)
              | .ok _ =>
                let gzv : Bool := hx = "1f8b".toList
                (.ok gzv, { p3.2 with gz := some gzv })

/-! ## The write/flush/read round trip -/

/-- The spec's round-trip sequence on a fresh stream over a non-existent
object: `open(); write(b); flush(); seek(0); read(len(b))`, with the final
`read` result. -/
def roundTrip (b : List Nat) : PyRes PyVal × GSFileState :=
  let s0 := fileOpen (initState none)
  match writeBytes b s0 with
  | (.error e, s) => (.error e, s)
  | (.ok _, s1) =>
    match flushBuf true s1 with
    | (.error e, s) => (.error e, s)
    | (.ok _, s2) =>
      match seekTo 0 0 s2 with
      | (.error e, s) => (.error e, s)
      | (.ok _, s3) => readData (some b.length) s3

/-! ## The context-manager protocol

`GSFile.__enter__` returns `self.open()`; `GSFile.__exit__` calls
`close()` and returns `None`, so a body exception propagates after the
close. A with-block body is modelled as any sequence of stream operations,
interpreted until the first raised exception. -/

/-- One stream operation a with-block body can perform. -/
inductive FileOp where
  | rd (size : Option Nat)
  | wr (b : List Nat)
  | sk (pos : Int) (whence : Int)
  | fl
  | cl
  | gzq
deriving DecidableEq, Repr

/-- Run one operation, keeping the raised exception (if any) and the
post-state. `ok` models whether remote uploads succeed. -/
def runOp (ok : Bool) (op : FileOp) (s : GSFileState) :
    Option PyErr × GSFileState :=
  match op with
  | .rd size =>
    match readData size s with
    | (.ok _, s') => (none, s')
    | (.error e, s') => (some e, s')
  | .wr b =>
    match writeBytes b s with
    | (.ok _, s') => (none, s')
    | (.error e, s') => (some e, s')
  | .sk pos whence =>
    match seekTo pos whence s with
    | (.ok _, s') => (none, s')
    | (.error e, s') => (some e, s')
  | .fl =>
    match flushBuf ok s with
    | (.ok _, s') => (none, s')
    | (.error e, s') => (some e, s')
  | .cl =>
    match closeFile ok s with
    | (.ok _, s') => (none, s')
    | (.error e, s') => (some e, s')
  | .gzq =>
    match isGz s with
    | (.ok _, s') => (none, s')
    | (.error e, s') => (some e, s')

/-- Run a body: the first exception aborts the remaining operations, as in
Python. -/
def runOps (ok : Bool) : List FileOp → GSFileState →
    Option PyErr × GSFileState
  | [], s => (none, s)
  | op :: rest, s =>
    match runOp ok op s with
    | (none, s') => runOps ok rest s'
    | (some e, s') => (some e, s')

/-- `with GSFile(...) as f:` — `__enter__` opens the stream, the body runs,
and `__exit__` closes it on every exit path; an exception raised by the
close (failed upload) takes over, otherwise the body's exception (if any)
propagates. -/
def withBlock (ok : Bool) (ops : List FileOp) (s : GSFileState) :
    Option PyErr × GSFileState :=
  let s1 := fileOpen s
  let body := runOps ok ops s1
  let fin := closeFile ok body.2
  match fin.1 with
  | .error e => (some e, fin.2)
  | .ok _ => (body.1, fin.2)

/-- The cleanup invariant of a stream: a closed stream holds no temp file
and no buffer. `__init__` establishes it and every operation preserves
it. -/
def cleanClosed (s : GSFileState) : Prop :=
  s.closed = true → s.tempFile = none ∧ s.buffer = none

example : preOfUri "gs://aries_test".toList = [] := by decide
example : preOfUri "gs://aries_test/".toList = [] := by decide
example : preOfUri "gs://aries_test/test_folder".toList
    = "test_folder".toList := by decide
example : preOfUri "gs://aries_test/test_folder/".toList
    = "test_folder/".toList := by decide
example : uriHost "gs://aries_test/test_folder".toList
    = "aries_test".toList := by decide
example : nameOf "gs://bucket_a/a/b/c/".toList = "c".toList := by decide
example : copyPlan "gs://bucket_a/a/b/c/".toList "gs://bucket_b/x/y/z".toList
    ["a/b/c/d/example.txt".toList, "a/b/c/example.txt".toList]
    = ["x/y/z/d/example.txt".toList, "x/y/z/example.txt".toList] := by decide

/-! ## Theorems -/

theorem endsSlash_append_slash (l : List Char) : endsSlash (l ++ ['/']) = true := by
  simp [endsSlash]

/-- C2: `copy(to)` follows the ordered destination rules for a folder
source (bucket-root destination forced folder-like; destination with a
trailing separator gets the source base name appended — copy-into;
destination without one gets a separator appended — rename), renames every
listed key by replacing the first occurrence of the source prefix with the
destination prefix (skipping keys the replacement leaves unchanged), and on
the spec's example maps `bucket_a/a/b/c/d/example.txt` to
`bucket_b/x/y/z/d/example.txt`. -/
theorem copy_rules_and_example :
    (∀ srcPre n dst, endsSlash srcPre = true → preOfUri dst = [] →
        endsSlash dst = false →
        copyDest srcPre n dst = preOfUri ((dst ++ ['/']) ++ n ++ ['/'])) ∧
    (∀ srcPre n dst, endsSlash srcPre = true → endsSlash dst = true →
        copyDest srcPre n dst = preOfUri (dst ++ n ++ ['/'])) ∧
    (∀ srcPre n dst, endsSlash srcPre = true → endsSlash dst = false →
        preOfUri dst ≠ [] →
        copyDest srcPre n dst = preOfUri (dst ++ ['/'])) ∧
    (∀ pat rep k, pat ≠ [] → pat.isPrefixOf k →
        replaceFirst pat rep k = rep ++ k.drop pat.length) ∧
    (∀ p d k, copyKey p d k =
        if replaceFirst p d k = k then none else some (replaceFirst p d k)) ∧
    copyPlan "gs://bucket_a/a/b/c/".toList "gs://bucket_b/x/y/z".toList
        ["a/b/c/d/example.txt".toList, "a/b/c/example.txt".toList]
      = ["x/y/z/d/example.txt".toList, "x/y/z/example.txt".toList] ∧
    copyDest "a/b/c/".toList "c".toList "gs://bucket_b/x/y/z".toList
      = "x/y/z/".toList ∧
    uriHost "gs://bucket_b/x/y/z".toList = "bucket_b".toList := by
  refine ⟨?_, ?_, ?_, ?_, ?_, by decide, by decide, by decide⟩
  · intro srcPre n dst h1 h2 h3
    simp [copyDest, h1, h2, h3, endsSlash_append_slash]
  · intro srcPre n dst h1 h2
    simp [copyDest, h1, h2]
  · intro srcPre n dst h1 h2 h3
    simp [copyDest, h1, h2, h3]
  · intro pat rep k hne hpre
    cases k with
    | nil =>
      cases pat with
      | nil => exact absurd rfl hne
      | cons a as => simp at hpre
    | cons c rest => simp [replaceFirst, hpre]
  · intro p d k
    by_cases h : replaceFirst p d k = k <;> simp [copyKey, h]

/-- C2 witness: the three destination rules and the renaming rule applied
at concrete inputs. -/
theorem copy_rules_and_example_witness :
    copyDest "a/b/c/".toList "c".toList "gs://bucket_b/x/y/z".toList
      = preOfUri ("gs://bucket_b/x/y/z".toList ++ ['/']) ∧
    copyDest "test_folder/".toList "test_folder".toList
        "gs://aries_test/copy_test/".toList
      = preOfUri ("gs://aries_test/copy_test/".toList
          ++ "test_folder".toList ++ ['/']) ∧
    copyDest "tf/".toList "tf".toList "gs://aries_test".toList
      = preOfUri (("gs://aries_test".toList ++ ['/']) ++ "tf".toList ++ ['/']) ∧
    replaceFirst "a/b/c/".toList "x/y/z/".toList "a/b/c/d/example.txt".toList
      = "x/y/z/".toList ++ "a/b/c/d/example.txt".toList.drop "a/b/c/".toList.length := by
  have h := copy_rules_and_example
  exact ⟨h.2.2.1 _ _ _ (by decide) (by decide) (by decide),
         h.2.1 _ _ _ (by decide) (by decide),
         h.1 _ _ _ (by decide) (by decide) (by decide),
         h.2.2.2.1 _ _ _ (by decide) (by decide)⟩

/-- C4 counter-evidence: on a two-byte object, a fresh open stream at
offset 0 answering `read(1)` returns the single requested byte but then
sets the offset to the whole object size 2 — `if end:` treats the inclusive
range end 0 as falsy — where the claim requires offset 1. -/
theorem read_range_end_zero_offset :
    (readData (some 1) (fileOpen (initState (some [65, 66])))).1
      = .ok (.bytes [65]) ∧
    (readData (some 1) (fileOpen (initState (some [65, 66])))).2.offset = 2 := by
  decide

/-- C6 counter-evidence: a seek with invalid whence 5 on a stream with a
pending 3-byte buffer raises `ValueError` as claimed, but only after the
buffer was materialized, which moves the offset from 3 to 6 — the claim
requires the offset unchanged. -/
theorem seek_bad_whence_offset_changed :
    ((writeBytes [1, 2, 3] (fileOpen (initState none))).2).offset = 3 ∧
    (seekTo 0 5 ((writeBytes [1, 2, 3] (fileOpen (initState none))).2)).1
      = .error .valueError ∧
    (seekTo 0 5 ((writeBytes [1, 2, 3] (fileOpen (initState none))).2)).2.offset
      = 6 := by
  decide

/-- C5 counterexample: `flush()` on a closed (freshly constructed) stream
raises nothing — it returns normally — while the claim requires an
invalid-state error from both `write` and `flush`. -/
theorem flush_closed_no_error :
    flushBuf true (initState none) = (.ok (), initState none) := by decide

/-- C5 (amended): on a closed stream, `write` raises `ValueError` and
leaves the state (hence the remote object) untouched; `flush` does not
raise — with the buffer and temp file cleared, as `close` guarantees, it
is a silent no-op and performs no upload. -/
theorem closed_write_raises_flush_silent (s : GSFileState) (b : List Nat)
    (ok : Bool) (h : s.closed = true) :
    writeBytes b s = (.error .valueError, s) ∧
    (s.buffer = none → s.tempFile = none → flushBuf ok s = (.ok (), s)) := by
  constructor
  · unfold writeBytes
    rw [h]
    simp
  · intro hb ht
    simp [flushBuf, appendBuf, hb, ht]

/-- C5 witness: the amended behaviour at the freshly constructed stream. -/
theorem closed_write_raises_flush_silent_witness :
    writeBytes [1] (initState none) = (.error .valueError, initState none) ∧
    flushBuf true (initState none) = (.ok (), initState none) := by
  have h := closed_write_raises_flush_silent (initState none) [1] true rfl
  exact ⟨h.1, h.2 rfl rfl⟩

/-- C8 counterexample: `seek(5)` works on a closed, freshly constructed
stream, and the following `open()` keeps the offset at 5 — `open()` does
not reset the stream position. -/
theorem open_does_not_reset_offset :
    ((seekTo 5 0 (initState none)).2).closed = true ∧
    (fileOpen ((seekTo 5 0 (initState none)).2)).offset ≠ 0 := by
  decide

/-- C8 (amended): a newly constructed stream is closed with offset 0,
empty buffer and no temp file; `open()` clears the closed flag and the
pending buffer but leaves the offset exactly as it was. -/
theorem init_closed_open_clears_buffer :
    (∀ r, (initState r).closed = true ∧ (initState r).offset = 0 ∧
        (initState r).buffer = none ∧ (initState r).tempFile = none) ∧
    (∀ s, (fileOpen s).closed = false ∧ (fileOpen s).buffer = none ∧
        (fileOpen s).offset = s.offset) :=
  ⟨fun _ => ⟨rfl, rfl, rfl, rfl⟩, fun _ => ⟨rfl, rfl, rfl⟩⟩

/-- C9 counterexample: on a 1-byte object `is_gz()` returns `False` through
the early return that bypasses the cache — the state (in particular the
cached flag, still `none`) is untouched, while the claim says the result is
cached per stream instance. -/
theorem isGz_short_not_cached :
    isGz (fileOpen (initState (some [0x1f])))
      = (.ok false, fileOpen (initState (some [0x1f]))) ∧
    (fileOpen (initState (some [0x1f]))).gz = none := by
  decide

/-- C3 counter-evidence: a write that pushes a fresh buffer past the 1 MiB
threshold returns the written length, but advances the offset twice — once
inside the eager `__append` (which adds the materialized buffer length) and
once in `write` itself — so the offset grows by `2 * len(b)` instead of
`len(b)`. -/
theorem write_eager_flush_double_advance (s : GSFileState) (b : List Nat)
    (hopen : s.closed = false) (hbuf : s.buffer = none)
    (hlen : 1024 * 1024 < b.length) :
    (writeBytes b s).1 = .ok b.length ∧
    (writeBytes b s).2.offset = s.offset + b.length + b.length := by
  cases b with
  | nil => simp at hlen
  | cons c rest =>
    have hlen' : 1048576 < rest.length + 1 := by simpa using hlen
    cases htf : s.tempFile with
    | none =>
      refine ⟨?_, ?_⟩ <;>
        simp [writeBytes, appendBuf, hopen, hbuf, htf, hlen']
    | some t =>
      refine ⟨?_, ?_⟩ <;>
        simp [writeBytes, appendBuf, hopen, hbuf, htf, hlen']

/-- C3 witness: a single write of 1 MiB + 1 zero bytes on a freshly opened
stream. -/
theorem write_eager_flush_double_advance_witness :
    (writeBytes (List.replicate 1048577 0) (fileOpen (initState none))).1
      = .ok (List.replicate 1048577 0).length ∧
    (writeBytes (List.replicate 1048577 0) (fileOpen (initState none))).2.offset
      = (fileOpen (initState none)).offset + (List.replicate 1048577 0).length
        + (List.replicate 1048577 0).length :=
  write_eager_flush_double_advance _ _ rfl rfl
    (by rw [List.length_replicate]; norm_num)

/-- C7: `close()` on an open stream behaves as `flush()` followed by the
unconditional cleanup — the temp file is gone, the buffer cleared and the
stream marked closed, whatever the flush result (in particular after a
failed upload, whose exception still propagates); on an already closed
stream it is a no-op. -/
theorem close_always_cleans (ok : Bool) (s : GSFileState) :
    (s.closed = true → closeFile ok s = (.ok (), s)) ∧
    (s.closed = false →
      (closeFile ok s).1 = (flushBuf ok s).1 ∧
      (closeFile ok s).2
        = { (flushBuf ok s).2 with
            tempFile := none, buffer := none, closed := true }) := by
  constructor
  · intro h
    simp [closeFile, h]
  · intro h
    refine ⟨?_, ?_⟩ <;> simp [closeFile, h]

/-- C7 witness: a no-op close on a fresh (closed) stream, and a close after
a 2-byte write whose upload fails — the `ValueError`-free cleanup still
happens. -/
theorem close_always_cleans_witness :
    closeFile true (initState none) = (.ok (), initState none) ∧
    (closeFile false ((writeBytes [1, 2] (fileOpen (initState none))).2)).1
      = (flushBuf false ((writeBytes [1, 2] (fileOpen (initState none))).2)).1 ∧
    (closeFile false ((writeBytes [1, 2] (fileOpen (initState none))).2)).2
      = { (flushBuf false ((writeBytes [1, 2] (fileOpen (initState none))).2)).2
          with tempFile := none, buffer := none, closed := true } := by
  have h1 := close_always_cleans true (initState none)
  have h2 := close_always_cleans false
    ((writeBytes [1, 2] (fileOpen (initState none))).2)
  exact ⟨h1.1 rfl, (h2.2 (by decide)).1, (h2.2 (by decide)).2⟩

theorem readData_temp_not_bytes {s : GSFileState} {t : List Nat}
    (h : s.tempFile = some t) (size : Option Nat) (v : List Nat) :
    (readData size s).1 ≠ .ok (.bytes v) := by
  unfold readData
  rw [h]
  dsimp only
  split
  · simp
  · split <;> simp

/-- C1 counter-evidence: the round trip `open(); write(b); flush();
seek(0); read(len(b))` never hands the bytes back — the final read is
served from the temp file, which is opened in text mode, so it yields a
`str` (or nothing at all: for the empty sequence no temp file is created
and the read of the absent object returns `None`). On `b = b"\xff"` the
text decoder rejects the byte outright and the read raises
`UnicodeDecodeError` (the claim requires it to return `b"\xff"`). -/
theorem round_trip_not_bytes :
    (∀ b, (roundTrip b).1 ≠ .ok (.bytes b)) ∧
    (roundTrip [0xFF]).1 = .error .unicodeDecodeError := by
  refine ⟨?_, by decide⟩
  intro b
  cases b with
  | nil => decide
  | cons c rest =>
    by_cases hlen : 1024 * 1024 < ((c :: rest : List Nat)).length
    · have hlen' : 1048576 < rest.length + 1 := by simpa using hlen
      simp [roundTrip, writeBytes, flushBuf, appendBuf, seekTo, seekCore,
        bufTruthy, fileOpen, initState, hlen']
      exact readData_temp_not_bytes rfl _ _
    · have hlen' : ¬ 1048576 < rest.length + 1 := by simpa using hlen
      simp [roundTrip, writeBytes, flushBuf, appendBuf, seekTo, seekCore,
        bufTruthy, fileOpen, initState, hlen']
      exact readData_temp_not_bytes rfl _ _

/-- C9 (amended): a cached flag short-circuits `is_gz()`; an existing
object shorter than two bytes yields `False` with the whole state — the
cache included — untouched (this early return is recomputed on each call);
and on a stream without temp file or pending buffer over an object whose
first two bytes are `1F 8B`, `is_gz()` returns `True`, restores the offset,
and caches the flag. -/
theorem isGz_spec (s : GSFileState) (r rest : List Nat) :
    (∀ v, s.gz = some v → isGz s = (.ok v, s)) ∧
    (s.gz = none → s.remote = some r → r.length < 2 → isGz s = (.ok false, s)) ∧
    (s.gz = none → s.remote = some (0x1f :: 0x8b :: rest) →
        s.tempFile = none → s.buffer = none →
        isGz s = (.ok true, { s with gz := some true })) := by
  refine ⟨?_, ?_, ?_⟩
  · intro v h
    simp [isGz, h]
  · intro h1 h2 h3
    simp [isGz, h1, h2, h3]
  · intro h1 h2 h3 h4
    cases rest with
    | nil =>
      simp [isGz, h1, h2, h3, h4, seekTo, seekCore, bufTruthy, readData, tellPos,
        hexlify, dlRange, textReadFrom, hexByte, hexDigit]
    | cons x xs =>
      have hA : ¬ (xs.length + 1 + 1 + 1 < 2) := by omega
      have hB : ¬ ((xs.length : Int) + 1 ≤ 0) := by omega
      simp [isGz, h1, h2, h3, h4, seekTo, seekCore, bufTruthy, readData, tellPos,
        hexlify, dlRange, textReadFrom, hexByte, hexDigit, hA, hB]

/-- C9 witness: the amended behaviour at concrete streams — a fresh open
stream on a gzip object (computed and cached), a stream with a cached
flag, and a fresh stream on a 1-byte object. -/
theorem isGz_spec_witness :
    isGz (fileOpen (initState (some [0x1f, 0x8b, 7])))
      = (.ok true,
         { fileOpen (initState (some [0x1f, 0x8b, 7])) with gz := some true }) ∧
    isGz { initState (some [9]) with gz := some true }
      = (.ok true, { initState (some [9]) with gz := some true }) ∧
    isGz (initState (some [9])) = (.ok false, initState (some [9])) := by
  have h1 := isGz_spec (fileOpen (initState (some [0x1f, 0x8b, 7]))) [9] [7]
  have h2 := isGz_spec { initState (some [9]) with gz := some true } [9] []
  have h3 := isGz_spec (initState (some [9])) [9] []
  exact ⟨h1.2.2 rfl rfl rfl rfl, h2.1 true rfl,
         h3.2.1 rfl rfl (by norm_num)⟩

/-! ## Invariant: every operation keeps a closed stream clean -/

theorem appendBuf_closed (s : GSFileState) : (appendBuf s).closed = s.closed := by
  unfold appendBuf
  split <;> rfl

theorem readData_frame (size : Option Nat) (s : GSFileState) :
    (readData size s).2.closed = s.closed ∧
    (readData size s).2.tempFile = s.tempFile ∧
    (readData size s).2.buffer = s.buffer := by
  unfold readData
  split
  · split
    · exact ⟨rfl, rfl, rfl⟩
    · split <;> exact ⟨rfl, rfl, rfl⟩
  · split
    · exact ⟨rfl, rfl, rfl⟩
    · exact ⟨rfl, rfl, rfl⟩

theorem seekCore_closed (pos w : Int) (s1 : GSFileState) :
    (seekCore pos w s1).2.closed = s1.closed := by
  unfold seekCore
  split
  · rfl
  · split
    · rfl
    · split
      · split <;> rfl
      · rfl

theorem seekCore_frame (pos w : Int) (s1 : GSFileState) :
    (seekCore pos w s1).2.tempFile = s1.tempFile ∧
    (seekCore pos w s1).2.buffer = s1.buffer := by
  unfold seekCore
  split
  · exact ⟨rfl, rfl⟩
  · split
    · exact ⟨rfl, rfl⟩
    · split
      · split <;> exact ⟨rfl, rfl⟩
      · exact ⟨rfl, rfl⟩

theorem seekTo_closed (pos w : Int) (s : GSFileState) :
    (seekTo pos w s).2.closed = s.closed := by
  unfold seekTo
  refine (seekCore_closed pos w _).trans ?_
  split
  · exact appendBuf_closed s
  · rfl

theorem seekTo_frame_nobuf (pos w : Int) (s : GSFileState)
    (hb : s.buffer = none) :
    (seekTo pos w s).2.tempFile = s.tempFile ∧
    (seekTo pos w s).2.buffer = none := by
  have hbt : bufTruthy s = false := by simp [bufTruthy, hb]
  have hs1 : (if bufTruthy s then appendBuf s else s) = s := by simp [hbt]
  unfold seekTo
  rw [hs1]
  exact ⟨(seekCore_frame pos w s).1, (seekCore_frame pos w s).2.trans hb⟩

theorem writeBytes_closed (b : List Nat) (s : GSFileState) :
    (writeBytes b s).2.closed = s.closed := by
  unfold writeBytes
  split
  · rfl
  · cases hbuf : s.buffer with
    | none =>
      simp only [hbuf]
      split
      · exact appendBuf_closed _
      · rfl
    | some buf =>
      simp only [hbuf]
      split
      · exact appendBuf_closed _
      · rfl

theorem flushBuf_closed (ok : Bool) (s : GSFileState) :
    (flushBuf ok s).2.closed = s.closed := by
  unfold flushBuf
  dsimp only
  split
  · split
    · exact appendBuf_closed s
    · exact appendBuf_closed s
  · exact appendBuf_closed s

theorem isGz_closed (s : GSFileState) : (isGz s).2.closed = s.closed := by
  unfold isGz
  split
  · rfl
  · split
    · rfl
    · split
      · rfl
      · dsimp only
        have hc1 : (seekTo 0 0 s).2.closed = s.closed := seekTo_closed 0 0 s
        have hc2 : (readData (some 2) (seekTo 0 0 s).2).2.closed = s.closed :=
          (readData_frame (some 2) (seekTo 0 0 s).2).1.trans hc1
        have hc3 : (seekTo (tellPos s) 0
            (readData (some 2) (seekTo 0 0 s).2).2).2.closed = s.closed :=
          (seekTo_closed (tellPos s) 0 _).trans hc2
        split
        · exact hc1
        · split
          · exact hc2
          · split
            · exact hc2
            · split
              · exact hc3
              · exact hc3

theorem readData_remote_bytes (size : Option Nat) (s : GSFileState)
    (r : List Nat) (ht : s.tempFile = none) (hr : s.remote = some r) :
    ∃ bs off2, readData size s = (.ok (.bytes bs), { s with offset := off2 }) := by
  unfold readData
  rw [ht, hr]
  exact ⟨_, _, rfl⟩

theorem isGz_clean_preserve (s : GSFileState) (hb : s.buffer = none)
    (ht : s.tempFile = none) :
    (isGz s).2.tempFile = none ∧ (isGz s).2.buffer = none := by
  have hbt : bufTruthy s = false := by simp [bufTruthy, hb]
  unfold isGz
  split
  · exact ⟨ht, hb⟩
  · split
    · exact ⟨ht, hb⟩
    next r hr =>
      split
      · exact ⟨ht, hb⟩
      · have hp1 : seekTo 0 0 s = (.ok 0, { s with offset := 0 }) := by
          simp [seekTo, seekCore, hbt]
        obtain ⟨bs, off2, hp2⟩ :=
          readData_remote_bytes (some 2) { s with offset := 0 } r ht hr
        have hp3 : seekTo (tellPos s) 0 { s with offset := off2 }
            = (.ok (tellPos s), { s with offset := tellPos s }) := by
          simp [seekTo, seekCore, bufTruthy, hb]
        dsimp only
        rw [hp1]
        dsimp only
        rw [hp2]
        dsimp only
        simp only [hexlify]
        rw [hp3]
        exact ⟨ht, hb⟩

theorem readData_clean (size : Option Nat) (s : GSFileState)
    (h : cleanClosed s) : cleanClosed (readData size s).2 := by
  intro hcl
  have f := readData_frame size s
  rw [f.1] at hcl
  exact ⟨f.2.1.trans (h hcl).1, f.2.2.trans (h hcl).2⟩

theorem writeBytes_clean (b : List Nat) (s : GSFileState)
    (h : cleanClosed s) : cleanClosed (writeBytes b s).2 := by
  intro hcl
  rw [writeBytes_closed] at hcl
  have e : writeBytes b s = (.error .valueError, s) := by
    unfold writeBytes
    rw [hcl]
    simp
  rw [e]
  exact h hcl

theorem seekTo_clean (pos w : Int) (s : GSFileState)
    (h : cleanClosed s) : cleanClosed (seekTo pos w s).2 := by
  intro hcl
  rw [seekTo_closed] at hcl
  have fr := seekTo_frame_nobuf pos w s (h hcl).2
  exact ⟨fr.1.trans (h hcl).1, fr.2⟩

theorem flushBuf_clean (ok : Bool) (s : GSFileState)
    (h : cleanClosed s) : cleanClosed (flushBuf ok s).2 := by
  intro hcl
  rw [flushBuf_closed] at hcl
  obtain ⟨ht, hb⟩ := h hcl
  have e : flushBuf ok s = (.ok (), s) := by
    simp [flushBuf, appendBuf, hb, ht]
  rw [e]
  exact ⟨ht, hb⟩

theorem closeFile_clean (ok : Bool) (s : GSFileState)
    (h : cleanClosed s) : cleanClosed (closeFile ok s).2 := by
  intro hcl
  by_cases hc : s.closed = true
  · have e : closeFile ok s = (.ok (), s) := by simp [closeFile, hc]
    rw [e]
    exact h hc
  · have hcf : s.closed = false := by simpa using hc
    refine ⟨?_, ?_⟩ <;> simp [closeFile, hcf]

theorem isGz_clean (s : GSFileState) (h : cleanClosed s) :
    cleanClosed (isGz s).2 := by
  intro hcl
  rw [isGz_closed] at hcl
  exact isGz_clean_preserve s (h hcl).2 (h hcl).1

theorem runOp_clean (ok : Bool) (op : FileOp) (s : GSFileState)
    (h : cleanClosed s) : cleanClosed (runOp ok op s).2 := by
  cases op with
  | rd size =>
    have e : (runOp ok (.rd size) s).2 = (readData size s).2 := by
      rcases hr : readData size s with ⟨v, s2⟩
      cases v <;> simp [runOp, hr]
    rw [e]
    exact readData_clean size s h
  | wr b =>
    have e : (runOp ok (.wr b) s).2 = (writeBytes b s).2 := by
      rcases hr : writeBytes b s with ⟨v, s2⟩
      cases v <;> simp [runOp, hr]
    rw [e]
    exact writeBytes_clean b s h
  | sk pos w =>
    have e : (runOp ok (.sk pos w) s).2 = (seekTo pos w s).2 := by
      rcases hr : seekTo pos w s with ⟨v, s2⟩
      cases v <;> simp [runOp, hr]
    rw [e]
    exact seekTo_clean pos w s h
  | fl =>
    have e : (runOp ok .fl s).2 = (flushBuf ok s).2 := by
      rcases hr : flushBuf ok s with ⟨v, s2⟩
      cases v <;> simp [runOp, hr]
    rw [e]
    exact flushBuf_clean ok s h
  | cl =>
    have e : (runOp ok .cl s).2 = (closeFile ok s).2 := by
      rcases hr : closeFile ok s with ⟨v, s2⟩
      cases v <;> simp [runOp, hr]
    rw [e]
    exact closeFile_clean ok s h
  | gzq =>
    have e : (runOp ok .gzq s).2 = (isGz s).2 := by
      rcases hr : isGz s with ⟨v, s2⟩
      cases v <;> simp [runOp, hr]
    rw [e]
    exact isGz_clean s h

theorem runOps_clean (ok : Bool) :
    ∀ (ops : List FileOp) (s : GSFileState), cleanClosed s →
      cleanClosed (runOps ok ops s).2
  | [], _, h => h
  | op :: rest, s, h => by
    have hc := runOp_clean ok op s h
    unfold runOps
    rcases hr : runOp ok op s with ⟨e, s2⟩
    rw [hr] at hc
    cases e with
    | none => simpa using runOps_clean ok rest s2 (by simpa using hc)
    | some err => simpa using hc

/-- C10: the context-manager protocol opens the stream on entry, and on
every exit path — normal completion or an operation raising anywhere in
the body — the exit handler closes it: afterwards the stream is marked
closed, the temp file is gone and the buffer cleared (the close itself
flushes pending writes, per `closeFile`). -/
theorem with_block_closes (ok : Bool) (ops : List FileOp) (s : GSFileState) :
    (fileOpen s).closed = false ∧
    (withBlock ok ops s).2.closed = true ∧
    (withBlock ok ops s).2.tempFile = none ∧
    (withBlock ok ops s).2.buffer = none := by
  have hclean : cleanClosed (runOps ok ops (fileOpen s)).2 :=
    runOps_clean ok ops (fileOpen s) (fun hc => by simp [fileOpen] at hc)
  have e2 : (withBlock ok ops s).2
      = (closeFile ok (runOps ok ops (fileOpen s)).2).2 := by
    unfold withBlock
    rcases hf : closeFile ok (runOps ok ops (fileOpen s)).2 with ⟨fe, fs⟩
    cases fe <;> simp [hf]
  refine ⟨rfl, ?_, ?_, ?_⟩ <;> rw [e2]
  all_goals
    by_cases hc : (runOps ok ops (fileOpen s)).2.closed = true
  · rw [show closeFile ok (runOps ok ops (fileOpen s)).2
        = (.ok (), (runOps ok ops (fileOpen s)).2) from by simp [closeFile, hc]]
    exact hc
  · have hcf : (runOps ok ops (fileOpen s)).2.closed = false := by simpa using hc
    simp [closeFile, hcf]
  · rw [show closeFile ok (runOps ok ops (fileOpen s)).2
        = (.ok (), (runOps ok ops (fileOpen s)).2) from by simp [closeFile, hc]]
    exact (hclean hc).1
  · have hcf : (runOps ok ops (fileOpen s)).2.closed = false := by simpa using hc
    simp [closeFile, hcf]
  · rw [show closeFile ok (runOps ok ops (fileOpen s)).2
        = (.ok (), (runOps ok ops (fileOpen s)).2) from by simp [closeFile, hc]]
    exact (hclean hc).2
  · have hcf : (runOps ok ops (fileOpen s)).2.closed = false := by simpa using hc
    simp [closeFile, hcf]

end Aries
